import Mathlib

/- Shallow embedding of the node-tor-control client (src/index.js).
   Strings are modelled as Lean strings; the event-driven control flow of
   connectTorControl and sendCommandToTorCOntrol is modelled as a state
   machine driven by an explicit list of server-side transport events. -/

/-- Characters treated as line terminators by the dot of a JavaScript regex:
the dot matches any character except these four. -/
def jsLineTerminator (c : Char) : Bool :=
  c = '\n' || c = '\r' || c = '\u2028' || c = '\u2029'

/-- Substring search: whether the pattern occurs contiguously in the list. -/
def containsPat (pat : List Char) : List Char → Bool
  | [] => pat.isPrefixOf []
  | c :: rest => pat.isPrefixOf (c :: rest) || containsPat pat rest

/-- Test of the unanchored regex on line 140 of index.js, which matches the
text 250 OK followed by an optional carriage return and a line feed anywhere
in the reply text. -/
def test250OK (cs : List Char) : Bool :=
  containsPat "250 OK\n".toList cs || containsPat "250 OK\r\n".toList cs

/-- Split on an optional carriage return followed by a line feed, as the
split call on line 141 of index.js does: each CRLF or lone LF is a separator,
a lone CR is not. -/
def splitLinesAux (acc : List Char) : List Char → List (List Char)
  | [] => [acc.reverse]
  | '\r' :: '\n' :: rest => acc.reverse :: splitLinesAux [] rest
  | '\n' :: rest => acc.reverse :: splitLinesAux [] rest
  | c :: rest => splitLinesAux (c :: acc) rest

/-- Line splitting of the reply text, starting with an empty accumulator. -/
def splitLines (cs : List Char) : List (List Char) :=
  splitLinesAux [] cs

/-- Test of the anchored regex on line 145 of index.js, matching lines that
begin with 250 followed by one more character that is not a line
terminator. -/
def starts250Dot (l : List Char) : Bool :=
  match l with
  | '2' :: '5' :: '0' :: c :: _ => !jsLineTerminator c
  | _ => false

/-- The message-building loop of lines 143 to 148 of index.js: skip empty
lines, strip the first four characters from lines matching the 250 prefix
test, keep all other lines verbatim, in arrival order. -/
def buildMessages : List (List Char) → List (List Char)
  | [] => []
  | l :: rest =>
    if l = [] then buildMessages rest
    else (if starts250Dot l then l.drop 4 else l) :: buildMessages rest

/-- Whitespace characters skipped by parseInt before reading digits. -/
def jsWhitespace (c : Char) : Bool :=
  c = ' ' || c = '\t' || c = '\n' || c = '\r' || c = '\x0b' || c = '\x0c'

/-- Numeric value of a run of decimal digit characters. -/
def digitsToNat (ds : List Char) : Nat :=
  ds.foldl (fun a c => a * 10 + (c.toNat - 48)) 0

/-- Model of parseInt with radix 10: skip leading whitespace, read an
optional sign, then a maximal run of decimal digits; none models NaN, the
result when no digit is found. -/
def parseIntJs (s : String) : Option Int :=
  let cs := s.toList.dropWhile jsWhitespace
  let signAndRest : Int × List Char :=
    match cs with
    | '-' :: r => (-1, r)
    | '+' :: r => (1, r)
    | r => (1, r)
  let ds := signAndRest.2.takeWhile Char.isDigit
  if ds = [] then none else some (signAndRest.1 * (digitsToNat ds : Int))

/-- Model of the substr method with a start index and no length argument. -/
def jsSubstrFrom (s : String) (start : Nat) : String :=
  String.mk (s.toList.drop start)

/-- Model of the substr method with a start index and a length argument. -/
def jsSubstrLen (s : String) (start len : Nat) : String :=
  String.mk ((s.toList.drop start).take len)

/-- Structured result delivered by the reply handler of
sendCommandToTorCOntrol: the ok form mirrors the object of lines 149 to 153
of index.js, the err form mirrors the object of lines 155 to 159 together
with the Error surfaced to the callback. -/
inductive ReplyResult
  | ok (code : Nat) (messages : List String) (data : String)
  | err (code : Option Int) (message : String) (data : String)
  deriving DecidableEq

/-- Whether a reply result is the success form. -/
def ReplyResult.isOk : ReplyResult → Bool
  | .ok _ _ _ => true
  | .err _ _ _ => false

/-- Messages list of a reply result; empty for the error form. -/
def ReplyResult.messagesOf : ReplyResult → List String
  | .ok _ ms _ => ms
  | .err _ _ _ => []

/-- Reply parsing of lines 139 to 159 of index.js: a text containing the
250 OK terminator pattern anywhere is a success whose messages come from the
line loop; anything else is an error with the code parsed from the first
three characters and the message from character four on, the raw text being
retained in both cases. -/
def parseReply (data : String) : ReplyResult :=
  if test250OK data.toList then
    ReplyResult.ok 250 ((buildMessages (splitLines data.toList)).map String.mk) data
  else
    ReplyResult.err (parseIntJs (jsSubstrLen data 0 3)) (jsSubstrFrom data 4) data

/-- JavaScript values, for arguments such as the persistent option that the
source coerces with double negation. -/
inductive JSVal
  | vBool (b : Bool)
  | vNum (n : Int)
  | vNaN
  | vStr (s : String)
  | vUndefined
  | vNull
  | vObj
  deriving DecidableEq

/-- Truthiness of a JavaScript value, the double-negation coercion. -/
def truthy : JSVal → Bool
  | .vBool b => b
  | .vNum n => n != 0
  | .vNaN => false
  | .vStr s => s != ""
  | .vUndefined => false
  | .vNull => false
  | .vObj => true

/-- Session state of a TorControl instance: the connection field of the
instance together with the private opts captured by the constructor; the
nextConn counter numbers transport handles so distinct sockets are
distinguishable. -/
structure TCState where
  connection : Option Nat
  nextConn : Nat
  persistent : JSVal
  password : String
  host : String
  port : Nat
  pathOpt : Option String
  deriving DecidableEq

/-- Model of isTorControlPersistent, lines 109 to 111 of index.js. -/
def isPersistent (st : TCState) : Bool :=
  truthy st.persistent

/-- Model of setTorControlPersistent, lines 112 to 115 of index.js: store
the boolean coercion of the argument in the shared opts. -/
def setPersistent (st : TCState) (value : JSVal) : TCState :=
  { st with persistent := JSVal.vBool (truthy value) }

/-- The authentication line written by connectTorControl on line 86 of
index.js, with null params so the configured password is used. -/
def authLine (st : TCState) : String :=
  "AUTHENTICATE \"" ++ st.password ++ "\"\r\n"

/-- Server-side transport events driving a run of the model. -/
inductive SEv
  | data (s : String)
  | connErr (s : String)
  | endEv
  deriving DecidableEq

/-- Observable client-side events, in order: writes to the transport, the
data and end pass-through emissions of lines 68 to 74 of index.js, and a
marker recorded when an authentication reply is accepted. -/
inductive Ev
  | write (s : String)
  | emitData (s : String)
  | emitEnd
  | authOk
  deriving DecidableEq

/-- Result of a connect callback invocation. -/
inductive COut
  | okC (conn : Option Nat)
  | errC (msg : String)
  deriving DecidableEq

/-- Deliveries made to the caller of sendCommand: ok and err carry the
connection field observed at callback time together with the parsed reply,
connectErr is the propagation of a connect failure, and typeError marks the
unguarded invocation of a missing callback on line 131 of index.js. -/
inductive Outcome
  | ok (connAtCb : Option Nat) (code : Nat) (messages : List String) (data : String)
  | err (connAtCb : Option Nat) (code : Option Int) (message : String) (data : String)
  | connectErr (msg : String)
  | typeError
  deriving DecidableEq

/-- Wrap a parsed reply as the delivery observed by the caller, with the
connection field read at callback time. -/
def mkOutcome (snap : Option Nat) : ReplyResult → Outcome
  | .ok c ms d => .ok snap c ms d
  | .err c m d => .err snap c m d

/-- Listener and session state during one sendCommand invocation: the once
listeners registered by connectTorControl (error, and data for the
authentication reply), the once data listener awaiting the command reply,
and the once end listener registered by disconnectTorControl. -/
structure Machine where
  st : TCState
  errActive : Bool
  authActive : Bool
  replyActive : Bool
  endCbActive : Bool
  pendingData : String
  trace : List Ev
  outcomes : List Outcome
  deriving DecidableEq

/-- Body of the tryDisconnect callback on lines 134 to 161 of index.js:
parse and deliver the reply when a callback was supplied, else deliver
nothing. -/
def deliver (hasCb : Bool) (m : Machine) (d : String) : Machine :=
  if hasCb then
    { m with outcomes := m.outcomes ++ [mkOutcome m.st.connection (parseReply d)] }
  else m

/-- Error branch of the sendCommand connect callback, lines 130 to 132 of
index.js: the callback is invoked without a guard, so a missing callback
raises a type error instead of reporting. -/
def sendCbErr (hasCb : Bool) (m : Machine) (msg : String) : Machine :=
  if hasCb then { m with outcomes := m.outcomes ++ [Outcome.connectErr msg] }
  else { m with outcomes := m.outcomes ++ [Outcome.typeError] }

/-- One transport event processed by the listeners installed during a
sendCommand invocation, in registration order: the data pass-through of
lines 68 to 70 of index.js, the once data authentication handler of lines
77 to 83 feeding the sendCommand callback of lines 129 to 163, the once
data reply handler of lines 133 to 162 with the tryDisconnect decision of
lines 123 to 128, the once error handler of lines 60 to 64, and the end
handler of lines 71 to 74 followed by the once end disconnect callback of
lines 98 to 100. -/
def step (cmd : String) (keep hasCb : Bool) (m : Machine) : SEv → Machine
  | .data s =>
    let m1 := { m with trace := m.trace ++ [Ev.emitData s] }
    if m1.authActive then
      let m2 := { m1 with authActive := false }
      if s.toList.take 3 = "250".toList then
        { m2 with trace := m2.trace ++ [Ev.authOk, Ev.write (cmd ++ "\r\n")],
                  replyActive := true }
      else
        sendCbErr hasCb m2 ("Authentication failed with message: " ++ s)
    else if m1.replyActive then
      let m2 := { m1 with replyActive := false }
      if keep || isPersistent m2.st || m2.st.connection = none then
        deliver hasCb m2 s
      else
        { m2 with trace := m2.trace ++ [Ev.write "QUIT\r\n"],
                  endCbActive := true, pendingData := s }
    else m1
  | .connErr e =>
    if m.errActive then
      sendCbErr hasCb { m with errActive := false }
        ("Error connecting to control port: " ++ e)
    else m
  | .endEv =>
    let m1 := { m with st := { m.st with connection := none },
                       trace := m.trace ++ [Ev.emitEnd] }
    if m1.endCbActive then
      deliver hasCb { m1 with endCbActive := false } m1.pendingData
    else m1

/-- Synchronous part of a sendCommand invocation, lines 121 to 164 of
index.js: connect is called with null params; with a connection already
installed the connect callback fires at once and the command is written,
otherwise a fresh transport is installed, the connect listeners are
registered and the authenticate line is written. -/
def initSend (st : TCState) (cmd : String) : Machine :=
  match st.connection with
  | some _ =>
    { st := st, errActive := false, authActive := false, replyActive := true,
      endCbActive := false, pendingData := "",
      trace := [Ev.write (cmd ++ "\r\n")], outcomes := [] }
  | none =>
    { st := { st with connection := some st.nextConn, nextConn := st.nextConn + 1 },
      errActive := true, authActive := true, replyActive := false,
      endCbActive := false, pendingData := "",
      trace := [Ev.write (authLine st)], outcomes := [] }

/-- A full sendCommand run: the synchronous part followed by the processing
of the given server events. -/
def runSend (st : TCState) (cmd : String) (keep hasCb : Bool)
    (evs : List SEv) : Machine :=
  evs.foldl (step cmd keep hasCb) (initSend st cmd)

/-- Listener state during a standalone connectTorControl invocation. -/
structure CMachine where
  st : TCState
  errActive : Bool
  authActive : Bool
  trace : List Ev
  outcomes : List COut
  deriving DecidableEq

/-- One transport event processed by the listeners of a standalone
connectTorControl call: the data pass-through, the once data authentication
handler of lines 77 to 83 of index.js registered only when a callback is
supplied, the guarded once error handler of lines 60 to 64, and the end
handler of lines 71 to 74. -/
def cstep (hasCb : Bool) (m : CMachine) : SEv → CMachine
  | .data s =>
    let m1 := { m with trace := m.trace ++ [Ev.emitData s] }
    if m1.authActive then
      let m2 := { m1 with authActive := false }
      if s.toList.take 3 = "250".toList then
        { m2 with trace := m2.trace ++ [Ev.authOk],
                  outcomes := m2.outcomes ++ [COut.okC m2.st.connection] }
      else
        { m2 with outcomes := m2.outcomes ++
            [COut.errC ("Authentication failed with message: " ++ s)] }
    else m1
  | .connErr e =>
    if m.errActive then
      let m1 := { m with errActive := false }
      if hasCb then
        { m1 with outcomes := m1.outcomes ++
            [COut.errC ("Error connecting to control port: " ++ e)] }
      else m1
    else m
  | .endEv =>
    { m with st := { m.st with connection := none },
             trace := m.trace ++ [Ev.emitEnd] }

/-- Synchronous part of connectTorControl with null params, lines 37 to 88
of index.js: with a connection installed the callback returns it at once
and nothing is written or changed; otherwise a fresh transport is installed
and the authenticate line is written after the listeners are registered. -/
def initConnect (st : TCState) (hasCb : Bool) : CMachine :=
  match st.connection with
  | some c =>
    { st := st, errActive := false, authActive := false, trace := [],
      outcomes := if hasCb then [COut.okC (some c)] else [] }
  | none =>
    { st := { st with connection := some st.nextConn, nextConn := st.nextConn + 1 },
      errActive := true, authActive := hasCb,
      trace := [Ev.write (authLine st)], outcomes := [] }

/-- A full connectTorControl run. -/
def runConnect (st : TCState) (hasCb : Bool) (evs : List SEv) : CMachine :=
  evs.foldl (cstep hasCb) (initConnect st hasCb)

/-- Whether a trace contains the authentication success marker. -/
def hasAuthOk : List Ev → Bool
  | [] => false
  | Ev.authOk :: _ => true
  | _ :: rest => hasAuthOk rest

/-- Scanner for the write-after-authentication order on a trace: true when
no write of the given line occurs strictly before the first authentication
success marker. -/
def okBeforeWrite (line : String) : List Ev → Bool
  | [] => true
  | Ev.authOk :: _ => true
  | Ev.write s :: rest => if s = line then false else okBeforeWrite line rest
  | _ :: rest => okBeforeWrite line rest

/-- The writes contained in a trace, in order. -/
def writesOf : List Ev → List String
  | [] => []
  | Ev.write s :: rest => s :: writesOf rest
  | _ :: rest => writesOf rest

/-- A closed session configured with password pw, used in concrete runs. -/
def stClosedExample : TCState :=
  { connection := none, nextConn := 0, persistent := JSVal.vBool false,
    password := "pw", host := "localhost", port := 9051, pathOpt := none }

/-- An open non-persistent session holding transport handle 0. -/
def stOpenEphemeral : TCState :=
  { connection := some 0, nextConn := 1, persistent := JSVal.vBool false,
    password := "", host := "localhost", port := 9051, pathOpt := none }

/-- An open persistent session holding transport handle 0. -/
def stOpenPersistent : TCState :=
  { stOpenEphemeral with persistent := JSVal.vBool true }

/-- The last non-empty line of a reply text under the split of line 141 of
index.js, the line a final-line classification would inspect. -/
def lastNonEmptyLine (d : String) : String :=
  String.mk (((splitLines d.toList).filter (fun l => !l.isEmpty)).getLastD [])

/-- The substring search reflects the infix relation on character lists. -/
theorem containsPat_iff (pat l : List Char) :
    containsPat pat l = true ↔ pat <:+: l := by
  induction l with
  | nil =>
    simp [containsPat, List.isPrefixOf_iff_prefix, List.infix_nil, List.prefix_nil]
  | cons c rest ih =>
    simp [containsPat, List.isPrefixOf_iff_prefix, List.infix_cons_iff, ih]

/-- The message loop is the filter of non-empty lines followed by the
conditional four character strip, in order. -/
theorem buildMessages_eq (ls : List (List Char)) :
    buildMessages ls = (ls.filter (fun l => !l.isEmpty)).map
      (fun l => if starts250Dot l then l.drop 4 else l) := by
  induction ls with
  | nil => rfl
  | cons l rest ih =>
    by_cases hl : l = []
    · subst hl
      simp [buildMessages, ih]
    · have hne : l.isEmpty = false := by
        cases l with
        | nil => exact absurd rfl hl
        | cons a as => rfl
      simp [buildMessages, hl, hne, ih, List.filter_cons]

/-- A reply result is the success form exactly when the terminator test of
line 140 accepts the text. -/
theorem parseReply_isOk_eq (d : String) :
    (parseReply d).isOk = test250OK d.toList := by
  simp only [parseReply, String.toList]
  cases hb : test250OK d.data <;> simp [hb, ReplyResult.isOk]

/-- For an accepted text the messages are the ones of the line loop. -/
theorem parseReply_messages_eq (d : String) (h : test250OK d.toList = true) :
    (parseReply d).messagesOf
      = (buildMessages (splitLines d.toList)).map String.mk := by
  simp only [parseReply, String.toList] at *
  rw [if_pos h]
  rfl

/-- For a rejected text the result is the error form of lines 155 to 159. -/
theorem parseReply_err_eq (d : String) (h : test250OK d.toList = false) :
    parseReply d
      = ReplyResult.err (parseIntJs (jsSubstrLen d 0 3)) (jsSubstrFrom d 4) d := by
  simp only [parseReply, String.toList] at *
  rw [if_neg (by simp [h])]

/-- C1: a run of the reply classifier is a success exactly when the 250 OK
terminator pattern occurs as a contiguous substring anywhere in the text,
not only as the final status line; this amends the claim that success is
classified by the final line alone. -/
theorem c1_success_iff_pattern_infix (d : String) :
    (parseReply d).isOk = true ↔
      ("250 OK\n".toList <:+: d.toList ∨ "250 OK\r\n".toList <:+: d.toList) := by
  rw [parseReply_isOk_eq]
  simp [test250OK, containsPat_iff]

/-- C1 counterexample: a reply whose final status line is 515 Bad is still
classified as a success because the text 250 OK followed by CRLF occurs
earlier in it, contradicting the claim that any reply whose final line
carries another code is reported as an error and that the substring
occurrence alone never yields a success. -/
theorem c1_counterexample :
    (parseReply "250 OK\r\n515 Bad\r\n").isOk = true ∧
    lastNonEmptyLine "250 OK\r\n515 Bad\r\n" = "515 Bad" := by decide

/-- C2: for every successful reply the messages are the non-empty lines in
arrival order, with the four character prefix stripped only from lines that
begin with 250 followed by one more character; other non-empty lines are
kept verbatim; a bare 250 OK reply yields exactly the one entry OK. This
amends the claim that the prefix is removed from every non-empty line. -/
theorem c2_messages_characterization :
    (∀ d : String, (parseReply d).isOk = true →
      (parseReply d).messagesOf
        = (((splitLines d.toList).filter (fun l => !l.isEmpty)).map
            (fun l => if starts250Dot l then l.drop 4 else l)).map String.mk) ∧
    (parseReply "250 OK\r\n").messagesOf = ["OK"] := by
  constructor
  · intro d h
    rw [parseReply_isOk_eq] at h
    rw [parseReply_messages_eq d h, buildMessages_eq]
  · decide

/-- C2 witness: the characterization evaluated on a bare 250 OK reply. -/
theorem c2_witness :
    (parseReply "250 OK\r\n").isOk = true ∧
    (parseReply "250 OK\r\n").messagesOf
      = (((splitLines "250 OK\r\n".toList).filter (fun l => !l.isEmpty)).map
          (fun l => if starts250Dot l then l.drop 4 else l)).map String.mk :=
  ⟨by decide, c2_messages_characterization.1 "250 OK\r\n" (by decide)⟩

/-- Modelled from the words of the claim for comparison: one entry per
non-empty content line with the four character prefix removed from every
such line, in arrival order. -/
def specMessagesAllStripped (d : String) : List String :=
  (((splitLines d.toList).filter (fun l => !l.isEmpty)).map (fun l => l.drop 4)).map
    String.mk

/-- C2 counterexample: in a successful reply the line 650 SIGNAL does not
begin with 250, so the code keeps it verbatim while the claim demands its
four character prefix be stripped. -/
theorem c2_counterexample :
    (parseReply "650 SIGNAL\r\n250 OK\r\n").isOk = true ∧
    (parseReply "650 SIGNAL\r\n250 OK\r\n").messagesOf = ["650 SIGNAL", "OK"] ∧
    specMessagesAllStripped "650 SIGNAL\r\n250 OK\r\n" = ["SIGNAL", "OK"] ∧
    ¬ (parseReply "650 SIGNAL\r\n250 OK\r\n").messagesOf
        = specMessagesAllStripped "650 SIGNAL\r\n250 OK\r\n" := by decide

/-- C7: every reply not classified as success is delivered as the error
form whose code is the base ten parse of the first three characters of the
raw text, with none standing for NaN, whose message is the raw text with
the first four characters removed, and which retains the full raw text. -/
theorem c7_error_payload (d : String) (h : (parseReply d).isOk = false) :
    parseReply d = ReplyResult.err (parseIntJs (String.mk (d.toList.take 3)))
      (String.mk (d.toList.drop 4)) d := by
  rw [parseReply_isOk_eq] at h
  rw [parseReply_err_eq d h]
  simp [jsSubstrLen, jsSubstrFrom, String.toList]

/-- C7 witness: the payload evaluated on a 515 reply. -/
theorem c7_witness :
    (parseReply "515 Bad authentication\r\n").isOk = false ∧
    parseReply "515 Bad authentication\r\n"
      = ReplyResult.err (some 515) "Bad authentication\r\n"
          "515 Bad authentication\r\n" :=
  ⟨by decide,
   (c7_error_payload "515 Bad authentication\r\n" (by decide)).trans (by decide)⟩

/-- C10: for every argument value, including non-booleans, setPersistent
stores the boolean coercion of the value, a subsequent isPersistent returns
exactly that boolean, and every other field of the session state is
unchanged. -/
theorem c10_setPersistent_frame (st : TCState) (v : JSVal) :
    isPersistent (setPersistent st v) = truthy v ∧
    (setPersistent st v).connection = st.connection ∧
    (setPersistent st v).password = st.password ∧
    (setPersistent st v).host = st.host ∧
    (setPersistent st v).port = st.port ∧
    (setPersistent st v).pathOpt = st.pathOpt ∧
    (setPersistent st v).nextConn = st.nextConn := by
  simp [isPersistent, setPersistent, truthy]

/-- The authentication marker distributes over trace concatenation. -/
theorem hasAuthOk_append (tr ch : List Ev) :
    hasAuthOk (tr ++ ch) = (hasAuthOk tr || hasAuthOk ch) := by
  induction tr with
  | nil => simp [hasAuthOk]
  | cons e tr ih => cases e <;> simp [hasAuthOk, ih]

/-- Appending events preserves the write-after-authentication order when
the prefix already holds it and either already contains the marker or the
appended chunk holds the order on its own. -/
theorem okBeforeWrite_append (line : String) (tr ch : List Ev)
    (h1 : okBeforeWrite line tr = true)
    (h2 : hasAuthOk tr = true ∨ okBeforeWrite line ch = true) :
    okBeforeWrite line (tr ++ ch) = true := by
  induction tr with
  | nil =>
    rcases h2 with h | h
    · simp [hasAuthOk] at h
    · simpa using h
  | cons e tr ih =>
    cases e with
    | write s =>
      by_cases hs : s = line
      · simp [okBeforeWrite, hs] at h1
      · simp only [okBeforeWrite, if_neg hs] at h1
        have h2' : hasAuthOk tr = true ∨ okBeforeWrite line ch = true := by
          rcases h2 with h | h
          · left; simpa [hasAuthOk] using h
          · right; exact h
        simpa [okBeforeWrite, if_neg hs] using ih h1 h2'
    | emitData s =>
      simp only [okBeforeWrite] at h1
      have h2' : hasAuthOk tr = true ∨ okBeforeWrite line ch = true := by
        rcases h2 with h | h
        · left; simpa [hasAuthOk] using h
        · right; exact h
      simpa [okBeforeWrite] using ih h1 h2'
    | emitEnd =>
      simp only [okBeforeWrite] at h1
      have h2' : hasAuthOk tr = true ∨ okBeforeWrite line ch = true := by
        rcases h2 with h | h
        · left; simpa [hasAuthOk] using h
        · right; exact h
      simpa [okBeforeWrite] using ih h1 h2'
    | authOk => simp [okBeforeWrite]

/-- Invariant of a sendCommand run started from a closed session: the trace
holds the write-after-authentication order for the given line, and a
pending reply or disconnect listener implies the handshake was accepted. -/
def sendInv (line : String) (m : Machine) : Prop :=
  okBeforeWrite line m.trace = true ∧
  ((m.replyActive = true ∨ m.endCbActive = true) → hasAuthOk m.trace = true)

/-- Each event step preserves the sendCommand invariant. -/
theorem sendInv_step (cmd line : String) (keep hasCb : Bool) (m : Machine)
    (e : SEv) (h : sendInv line m) :
    sendInv line (step cmd keep hasCb m e) := by
  obtain ⟨h1, h2⟩ := h
  cases e with
  | data s =>
    simp only [step]
    by_cases ha : m.authActive <;> simp only [ha, if_true, if_false]
    · by_cases h250 : s.toList.take 3 = "250".toList <;>
        simp only [h250, if_true, if_false]
      · constructor
        · apply okBeforeWrite_append
          · apply okBeforeWrite_append line m.trace [Ev.emitData s] h1
            right; simp [okBeforeWrite]
          · right; simp [okBeforeWrite]
        · intro _
          simp [hasAuthOk_append, hasAuthOk]
      · simp only [sendCbErr]
        by_cases hc : hasCb <;> simp only [hc, if_true, if_false] <;>
          refine ⟨okBeforeWrite_append line m.trace [Ev.emitData s] h1
            (Or.inr (by simp [okBeforeWrite])), ?_⟩ <;>
          · intro hr
            have := h2 (by simpa using hr)
            simp [hasAuthOk_append, this]
    · by_cases hr : m.replyActive <;> simp only [hr, if_true, if_false]
      · have hauth : hasAuthOk m.trace = true := h2 (Or.inl hr)
        by_cases hk : (keep || isPersistent m.st || decide (m.st.connection = none)) = true <;>
          simp only [hk, if_true, if_false]
        · simp only [deliver]
          by_cases hc : hasCb <;> simp only [hc, if_true, if_false] <;>
            exact ⟨okBeforeWrite_append line m.trace [Ev.emitData s] h1
              (Or.inl hauth),
              fun _ => by simp [hasAuthOk_append, hauth]⟩
        · refine ⟨?_, fun _ => by simp [hasAuthOk_append, hauth]⟩
          apply okBeforeWrite_append
          · apply okBeforeWrite_append line m.trace [Ev.emitData s] h1 (Or.inl hauth)
          · left; simp [hasAuthOk_append, hauth]
      · exact ⟨okBeforeWrite_append line m.trace [Ev.emitData s] h1
          (Or.inr (by simp [okBeforeWrite])),
          fun hx => by
            have := h2 (Or.inr (by simpa using hx))
            simp [hasAuthOk_append, this]⟩
  | connErr e' =>
    simp only [step]
    by_cases he : m.errActive <;> simp only [he, if_true, if_false]
    · simp only [sendCbErr]
      by_cases hc : hasCb <;> simp only [hc, if_true, if_false] <;>
        exact ⟨h1, fun hx => h2 (by simpa using hx)⟩
    · exact ⟨h1, h2⟩
  | endEv =>
    simp only [step]
    by_cases he : m.endCbActive <;> simp only [he, if_true, if_false]
    · simp only [deliver]
      have hauth : hasAuthOk m.trace = true := h2 (Or.inr he)
      by_cases hc : hasCb <;> simp only [hc, if_true, if_false] <;>
        exact ⟨okBeforeWrite_append line m.trace [Ev.emitEnd] h1 (Or.inl hauth),
          fun _ => by simp [hasAuthOk_append, hauth]⟩
    · refine ⟨okBeforeWrite_append line m.trace [Ev.emitEnd] h1
        (Or.inr (by simp [okBeforeWrite])), fun hx => ?_⟩
      have := h2 (Or.inl (by simpa [he] using hx))
      simp [hasAuthOk_append, this]


/-- Processing any event list preserves the sendCommand invariant. -/
theorem sendInv_run (cmd line : String) (keep hasCb : Bool) (evs : List SEv)
    (m : Machine) (h : sendInv line m) :
    sendInv line (evs.foldl (step cmd keep hasCb) m) := by
  induction evs generalizing m with
  | nil => exact h
  | cons e evs ih => exact ih _ (sendInv_step cmd line keep hasCb m e h)

/-- Write extraction distributes over trace concatenation. -/
theorem writesOf_append (tr ch : List Ev) :
    writesOf (tr ++ ch) = writesOf tr ++ writesOf ch := by
  induction tr with
  | nil => rfl
  | cons e tr ih => cases e <;> simp [writesOf, ih]

/-- With the authentication listener inactive, no connect machine step ever
writes to the transport. -/
theorem runConnect_no_writes (hasCb : Bool) (evs : List SEv) (m : CMachine)
    (ha : m.authActive = false) :
    writesOf ((evs.foldl (cstep hasCb) m)).trace = writesOf m.trace ∧
    (evs.foldl (cstep hasCb) m).authActive = false := by
  induction evs generalizing m with
  | nil => exact ⟨rfl, ha⟩
  | cons e evs ih =>
    have hstep : writesOf (cstep hasCb m e).trace = writesOf m.trace ∧
        (cstep hasCb m e).authActive = false := by
      cases e with
      | data s => simp [cstep, ha, writesOf_append, writesOf]
      | connErr e' =>
        by_cases he : m.errActive <;> by_cases hc : hasCb <;>
          simp [cstep, he, hc, ha]
      | endEv => simp [cstep, ha, writesOf_append, writesOf]
    obtain ⟨w1, a1⟩ := hstep
    obtain ⟨w2, a2⟩ := ih (cstep hasCb m e) a1
    exact ⟨w2.trans w1, a2⟩

/-- C6: on a session with no installed connection, the command line is never
written before that invocation accepts the authentication reply, a connect
error is propagated to the callback with nothing but the authenticate line
written, and an authentication failure is likewise propagated with the
command never written. This amends the claim, which the code violates when
a prior failed authentication left a stale connection installed. -/
theorem c6_no_write_before_auth (st : TCState) (cmd : String) (keep : Bool)
    (hconn : st.connection = none)
    (hline : ¬ cmd ++ "\r\n" = authLine st) :
    (∀ evs : List SEv,
      okBeforeWrite (cmd ++ "\r\n") (runSend st cmd keep true evs).trace = true) ∧
    (∀ e : String,
      (runSend st cmd keep true [SEv.connErr e]).outcomes
        = [Outcome.connectErr ("Error connecting to control port: " ++ e)] ∧
      (runSend st cmd keep true [SEv.connErr e]).trace
        = [Ev.write (authLine st)]) ∧
    (∀ s : String, ¬ s.toList.take 3 = "250".toList →
      (runSend st cmd keep true [SEv.data s]).outcomes
        = [Outcome.connectErr ("Authentication failed with message: " ++ s)] ∧
      (runSend st cmd keep true [SEv.data s]).trace
        = [Ev.write (authLine st), Ev.emitData s]) := by
  refine ⟨?_, ?_, ?_⟩
  · intro evs
    have hline' : ¬ authLine st = cmd ++ "\r\n" := fun hh => hline hh.symm
    have hinv : sendInv (cmd ++ "\r\n") (initSend st cmd) := by
      constructor
      · simp [initSend, hconn, okBeforeWrite, hline']
      · simp [initSend, hconn]
    exact (sendInv_run cmd (cmd ++ "\r\n") keep true evs _ hinv).1
  · intro e
    constructor <;> simp [runSend, initSend, hconn, step, sendCbErr]
  · intro s hs
    have hcond : (List.take 3 s.data = ['2', '5', '0']) = False :=
      eq_false fun hx => hs hx
    constructor <;> simp [runSend, initSend, hconn, step, sendCbErr, hcond]

/-- C6 witness: on a closed session a successful handshake precedes the
command write, and a connect error is propagated with nothing written. -/
theorem c6_witness :
    okBeforeWrite "GETINFO version\r\n"
      (runSend stClosedExample "GETINFO version" false true
        [SEv.data "250 OK\r\n", SEv.data "250 OK\r\n", SEv.endEv]).trace = true ∧
    (runSend stClosedExample "GETINFO version" false true
        [SEv.connErr "boom"]).outcomes
      = [Outcome.connectErr "Error connecting to control port: boom"] := by
  have h := c6_no_write_before_auth stClosedExample "GETINFO version" false rfl
    (by decide)
  exact ⟨h.1 _, (h.2.1 "boom").1.trans (by decide)⟩

/-- C6 counterexample: a first send whose authentication reply is 515 leaves
the stale connection installed, and a second send then writes its command
with no authentication ever accepted in either run, so as stated over every
invocation the claim fails. -/
theorem c6_counterexample :
    okBeforeWrite "GETINFO version\r\n"
      (runSend (runSend stClosedExample "GETINFO version" false true
          [SEv.data "515 Bad authentication\r\n"]).st
        "GETINFO version" false true [SEv.data "250 OK\r\n"]).trace = false ∧
    hasAuthOk (runSend stClosedExample "GETINFO version" false true
        [SEv.data "515 Bad authentication\r\n"]).trace = false := by decide

/-- C3: when the authentication reply to a fresh open is not status 250 the
failure is reported to the caller, but the connection handle installed by
the connect call stays installed, being cleared only by a later stream end;
this amends the claim that no handle remains installed. -/
theorem c3_auth_failure_keeps_connection (st : TCState) (s : String)
    (hconn : st.connection = none)
    (hs : ¬ s.toList.take 3 = "250".toList) :
    (runConnect st true [SEv.data s]).outcomes
      = [COut.errC ("Authentication failed with message: " ++ s)] ∧
    (runConnect st true [SEv.data s]).st.connection = some st.nextConn ∧
    writesOf (runConnect st true [SEv.data s]).trace = [authLine st] := by
  have hcond : (List.take 3 s.data = ['2', '5', '0']) = False :=
    eq_false fun hx => hs hx
  refine ⟨?_, ?_, ?_⟩ <;>
    simp [runConnect, initConnect, hconn, cstep, hcond, writesOf]

/-- C3 witness: the amended behavior evaluated on a 515 reply. -/
theorem c3_witness :
    (runConnect stClosedExample true [SEv.data "515 Bad authentication\r\n"]).outcomes
      = [COut.errC "Authentication failed with message: 515 Bad authentication\r\n"] ∧
    (runConnect stClosedExample true
        [SEv.data "515 Bad authentication\r\n"]).st.connection = some 0 ∧
    writesOf (runConnect stClosedExample true
        [SEv.data "515 Bad authentication\r\n"]).trace
      = ["AUTHENTICATE \"pw\"\r\n"] := by
  have h := c3_auth_failure_keeps_connection stClosedExample
    "515 Bad authentication\r\n" rfl (by decide)
  exact ⟨h.1.trans (by decide), h.2.1.trans (by decide), h.2.2.trans (by decide)⟩

/-- C3 counterexample: after an authentication failure the session still
holds a connection handle, contradicting the claim that the session is left
closed with no handle installed. -/
theorem c3_counterexample :
    ¬ (runConnect stClosedExample true
        [SEv.data "515 Bad authentication\r\n"]).st.connection = none ∧
    (runConnect stClosedExample true
        [SEv.data "515 Bad authentication\r\n"]).outcomes
      = [COut.errC "Authentication failed with message: 515 Bad authentication\r\n"]
    := by decide

/-- C8: a connect call on a session that already holds a connection returns
that handle to the callback at once, changes no session state, and neither
it nor the listeners it would have installed ever write to the transport. -/
theorem c8_connect_idempotent (st : TCState) (c : Nat) (hasCb : Bool)
    (evs : List SEv) (hconn : st.connection = some c) :
    (runConnect st hasCb []).st = st ∧
    (runConnect st hasCb []).trace = [] ∧
    (runConnect st hasCb []).outcomes
      = (if hasCb then [COut.okC (some c)] else []) ∧
    writesOf (runConnect st hasCb evs).trace = [] := by
  refine ⟨?_, ?_, ?_, ?_⟩
  · simp [runConnect, initConnect, hconn]
  · simp [runConnect, initConnect, hconn]
  · simp [runConnect, initConnect, hconn]
  · have h := runConnect_no_writes hasCb evs (initConnect st hasCb)
      (by simp [initConnect, hconn])
    simp only [runConnect]
    exact h.1.trans (by simp [initConnect, hconn, writesOf])

/-- C8 witness: idempotent connect evaluated on an open session. -/
theorem c8_witness :
    (runConnect stOpenEphemeral true []).st = stOpenEphemeral ∧
    (runConnect stOpenEphemeral true []).trace = [] ∧
    (runConnect stOpenEphemeral true []).outcomes = [COut.okC (some 0)] ∧
    writesOf (runConnect stOpenEphemeral true
        [SEv.data "650 X\r\n", SEv.endEv]).trace = [] := by
  have h := c8_connect_idempotent stOpenEphemeral 0 true
    [SEv.data "650 X\r\n", SEv.endEv] rfl
  exact ⟨h.1, h.2.1, h.2.2.1.trans (by decide), h.2.2.2⟩

/-- C5: on an open session, a send with no override on a non-persistent
session writes the quit line after the reply and delivers the result only
once the stream has ended and the connection field is null; with the
session persistent, or with the per-call override, no quit line is written,
the connection stays installed, and the caller observes it open. -/
theorem c5_close_before_delivery (st : TCState) (c : Nat) (cmd reply : String)
    (hconn : st.connection = some c) :
    (isPersistent st = false →
      (runSend st cmd false true [SEv.data reply, SEv.endEv]).outcomes
        = [mkOutcome none (parseReply reply)] ∧
      (runSend st cmd false true [SEv.data reply, SEv.endEv]).trace
        = [Ev.write (cmd ++ "\r\n"), Ev.emitData reply, Ev.write "QUIT\r\n",
           Ev.emitEnd] ∧
      (runSend st cmd false true [SEv.data reply, SEv.endEv]).st.connection
        = none) ∧
    (isPersistent st = true →
      (runSend st cmd false true [SEv.data reply]).outcomes
        = [mkOutcome (some c) (parseReply reply)] ∧
      (runSend st cmd false true [SEv.data reply]).trace
        = [Ev.write (cmd ++ "\r\n"), Ev.emitData reply] ∧
      (runSend st cmd false true [SEv.data reply]).st.connection = some c) ∧
    ((runSend st cmd true true [SEv.data reply]).outcomes
        = [mkOutcome (some c) (parseReply reply)] ∧
      (runSend st cmd true true [SEv.data reply]).trace
        = [Ev.write (cmd ++ "\r\n"), Ev.emitData reply] ∧
      (runSend st cmd true true [SEv.data reply]).st.connection = some c) := by
  refine ⟨fun hp => ?_, fun hp => ?_, ?_⟩
  · refine ⟨?_, ?_, ?_⟩ <;>
      simp [runSend, initSend, hconn, step, hp, deliver]
  · refine ⟨?_, ?_, ?_⟩ <;>
      simp [runSend, initSend, hconn, step, hp, deliver]
  · refine ⟨?_, ?_, ?_⟩ <;>
      simp [runSend, initSend, hconn, step, deliver]

/-- C5 witness: the close-then-deliver order evaluated on the newnym
scenario of the spec. -/
theorem c5_witness :
    (runSend stOpenEphemeral "SIGNAL NEWNYM" false true
        [SEv.data "250 OK\r\n", SEv.endEv]).outcomes
      = [Outcome.ok none 250 ["OK"] "250 OK\r\n"] ∧
    (runSend stOpenEphemeral "SIGNAL NEWNYM" false true
        [SEv.data "250 OK\r\n", SEv.endEv]).st.connection = none := by
  have h := (c5_close_before_delivery stOpenEphemeral 0 "SIGNAL NEWNYM"
    "250 OK\r\n" rfl).1 rfl
  exact ⟨h.1.trans (by decide), h.2.2⟩

/-- C4: the reply handler consumes only the first data chunk after the
command write, so the reply 250 OK CRLF split into the chunks 250-space and
OK-CRLF is delivered as an error while the same bytes in one chunk are
delivered as a success; the delivered result depends on fragmentation. -/
theorem c4_fragmentation_divergence :
    (runSend stOpenPersistent "GETINFO version" true true
        [SEv.data "250 OK\r\n"]).outcomes
      = [Outcome.ok (some 0) 250 ["OK"] "250 OK\r\n"] ∧
    (runSend stOpenPersistent "GETINFO version" true true
        [SEv.data "250 ", SEv.data "OK\r\n"]).outcomes
      = [Outcome.err (some 0) (some 250) "" "250 "] ∧
    ¬ (runSend stOpenPersistent "GETINFO version" true true
          [SEv.data "250 ", SEv.data "OK\r\n"]).outcomes
        = (runSend stOpenPersistent "GETINFO version" true true
          [SEv.data "250 OK\r\n"]).outcomes := by decide

/-- C9: when the connection attempt of a send without a callback fails, the
error branch invokes the missing callback unguarded, a type error; with a
callback supplied the same branch reports the wrapped connect error. -/
theorem c9_missing_callback_type_error (st : TCState) (cmd : String)
    (keep : Bool) (e : String) (hconn : st.connection = none) :
    (runSend st cmd keep false [SEv.connErr e]).outcomes
      = [Outcome.typeError] ∧
    (runSend st cmd keep true [SEv.connErr e]).outcomes
      = [Outcome.connectErr ("Error connecting to control port: " ++ e)] := by
  constructor <;> simp [runSend, initSend, hconn, step, sendCbErr]

/-- C9 witness: the two callback modes evaluated on a refused connection. -/
theorem c9_witness :
    (runSend stClosedExample "GETINFO version" false false
        [SEv.connErr "ECONNREFUSED"]).outcomes = [Outcome.typeError] ∧
    (runSend stClosedExample "GETINFO version" false true
        [SEv.connErr "ECONNREFUSED"]).outcomes
      = [Outcome.connectErr "Error connecting to control port: ECONNREFUSED"] := by
  have h := c9_missing_callback_type_error stClosedExample "GETINFO version"
    false "ECONNREFUSED" rfl
  exact ⟨h.1, h.2.trans (by decide)⟩
